import Mathlib

/-!
Shallow embedding of `src/renderer.py` (class `Renderer`) of the
country-directory repository, together with proofs of the specified
properties of its formatting logic.

Modelling conventions:
* Python strings are Lean `String`s (a sequence of unicode chars).
* The `async` framing in the source is vestigial (no suspension occurs);
  every method is embedded as a plain function.
* Numeric fields whose only use in the renderer is `str()` interpolation
  into an f-string (temperature, area, latitude, longitude, wind speed,
  visibility) are embedded as their rendered strings, since the renderer
  never inspects them otherwise.
* `timestamp` (a UTC `datetime`) is embedded as seconds since the epoch;
  `timedelta(hours=h, minutes=m)` is embedded as `h*3600 + m*60` seconds,
  and `strftime('%H:%M:%S')` as formatting of `t % 86400`.
* Exchange rates reach `Decimal(...)` as exact decimal text; a rate is
  embedded as a mantissa/exponent pair `num / 10^exp` (rates are
  non-negative in this domain).
* A Python `dict` iterates in insertion order with unique keys, so
  `currency_rates` is embedded as an association list.
* Fallible code (`re.search` returning `None`, and the subsequent
  `datetime + None` raising `TypeError`) is embedded with `Option`:
  a `none` result of `render` models the raised exception.
* The regex `\d` is modelled as an ASCII digit, the alphabet the inputs
  of this program use.
* The `tabulate` table-layout engine is a third-party collaborator; it is
  a parameter of `render`, not part of the embedded program.
-/

namespace CountryDirectory

/-- `collectors.models.LanguagesInfoDTO`: a language of a country. -/
structure Language where
  name : String
  native_name : String

/-- A currency rate as an exact decimal `num / 10 ^ exp`. -/
structure Rate where
  num : Nat
  exp : Nat

/-- `collectors.models.NewsInfoDTO`: one news item; `description` is optional. -/
structure NewsItem where
  title : String
  description : Option String

/-- The news container: the renderer reads `location_info.news.news`. -/
structure News where
  news : List NewsItem

/-- The `location` part of the input record. -/
structure Location where
  name : String
  capital : String
  subregion : String
  population : Nat
  area : String
  latitude : String
  longitude : String
  timezones : List String
  languages : List Language

/-- The `weather` part of the input record. -/
structure Weather where
  temp : String
  description : String
  wind_speed : String
  visibility : String

/-- `collectors.models.LocationInfoDTO`: the fully populated input record. -/
structure LocationInfo where
  location : Location
  weather : Weather
  currency_rates : List (String × Rate)
  news : News
  timestamp : Nat

/-- Python `", ".join(...)` / `str.join` semantics: empty string on the
empty list, otherwise the first element followed by `sep ++ x` for each
further element, accumulated left to right. -/
def joinSep (sep : String) : List String → String
  | [] => ""
  | x :: xs => xs.foldl (fun acc y => acc ++ sep ++ y) x

/-- `Renderer._format_languages`: `", ".join(f"{item.name} ({item.native_name})" ...)`. -/
def format_languages (langs : List Language) : String :=
  joinSep ", " (langs.map fun item => item.name ++ " (" ++ item.native_name ++ ")")

/-- Digit-grouping step of `"{:,}".format(n).replace(",", ".")`, operating on
the reversed digit string: after every complete group of three digits that is
followed by more digits, a `.` separator is inserted. -/
def insertSep : List Char → List Char
  | d1 :: d2 :: d3 :: d4 :: rest => d1 :: d2 :: d3 :: '.' :: insertSep (d4 :: rest)
  | l => l

/-- `Renderer._format_population`: `"{:,}".format(population).replace(",", ".")` —
the decimal digits grouped in threes from the right with `.` as separator. -/
def format_population (population : Nat) : String :=
  String.mk (insertSep (toString population).data.reverse).reverse

/-- `Decimal(rate).quantize(Decimal('.01'), rounding=ROUND_HALF_UP)` on the exact
decimal `num / 10 ^ exp`: the value in hundredths, rounded half-up (ties away
from zero; all quantities here are non-negative). -/
def quantize2 (num exp : Nat) : Nat :=
  if exp ≤ 2 then num * 10 ^ (2 - exp)
  else (2 * num + 10 ^ (exp - 2)) / (2 * 10 ^ (exp - 2))

/-- Zero-padding to two digits, as in `strftime` fields and the fractional
part of a two-decimal `Decimal`. -/
def pad2 (n : Nat) : String :=
  if n < 10 then "0" ++ toString n else toString n

/-- Rendering of a `Decimal` quantized to exponent -2: integer part, `.`,
exactly two fractional digits. -/
def renderRate (r : Rate) : String :=
  toString (quantize2 r.num r.exp / 100) ++ "." ++ pad2 (quantize2 r.num r.exp % 100)

/-- `Renderer._format_currency_rates`: for each `(currency, rates)` pair in
iteration order, `f"{currency} = {Decimal(rates).quantize(...)} руб."`,
joined with `", "`. -/
def format_currency_rates (rates : List (String × Rate)) : String :=
  joinSep ", " (rates.map fun p => p.1 ++ " = " ++ renderRate p.2 ++ " руб.")

/-- One attempt of the regex `UTC([+-])(\d\d):(\d\d)` at the start of the
text: on success, the three groups (sign char, hour digits, minute digits). -/
def matchTzAt : List Char → Option (Char × List Char × List Char)
  | 'U' :: 'T' :: 'C' :: s :: h1 :: h2 :: ':' :: m1 :: m2 :: _ =>
      if (s == '+' || s == '-') && h1.isDigit && h2.isDigit && m1.isDigit && m2.isDigit
      then some (s, [h1, h2], [m1, m2])
      else none
  | _ => none

/-- `re.search` semantics for the timezone pattern: the leftmost position at
which the pattern matches, scanning left to right. -/
def searchTz : List Char → Option (Char × List Char × List Char)
  | [] => none
  | c :: cs =>
      match matchTzAt (c :: cs) with
      | some r => some r
      | none => searchTz cs

/-- Python `str.lstrip('0')`: drop leading `'0'` characters. -/
def lstrip0 (s : List Char) : List Char :=
  s.dropWhile (fun c => c == '0')

/-- Python `int(...)` on a (non-empty) decimal digit string. -/
def digitsToNat (s : List Char) : Nat :=
  s.foldl (fun n c => n * 10 + (c.toNat - 48)) 0

/-- `int(hs) if hs else 0` after `hs = group.lstrip('0')`. -/
def tzComponent (s : List Char) : Nat :=
  let h := lstrip0 s
  if h.isEmpty then 0 else digitsToNat h

/-- `Renderer._parse_tz`: searches the timezone string for the pattern
`UTC([+-])(\d\d):(\d\d)`; on a match, builds
`timedelta(hours=int(hs) if hs else 0, minutes=int(ms) if ms else 0)`
(in seconds) from the stripped digit groups — the matched sign is bound but
never used. The implicit fall-through on no match returns `None`. -/
def parse_tz (tzstr : String) : Option Nat :=
  match searchTz tzstr.data with
  | some (_sign, hs, ms) => some (tzComponent hs * 3600 + tzComponent ms * 60)
  | none => none

/-- The value of a decimal digit character. -/
def dval (c : Char) : Nat :=
  c.toNat - 48

/-- `strftime('%H:%M:%S')` on the time of day `t` (seconds, `t < 86400`):
zero-padded 24-hour `HH:MM:SS`. -/
def fmtHMS (t : Nat) : String :=
  pad2 (t / 3600) ++ ":" ++ pad2 (t % 3600 / 60) ++ ":" ++ pad2 (t % 60)

/-- `Renderer._format_time`: `timestamp + _parse_tz(timezones[0])` formatted
as `%H:%M:%S`; `none` models the `TypeError` raised by adding the absent
(`None`) offset. -/
def format_time (timestamp : Nat) (tzstr : String) : Option String :=
  (parse_tz tzstr).map fun off => fmtHMS ((timestamp + off) % 86400)

/-- `Renderer._format_news`: starting from `"\n"`, append
`f"{i+1}) \"{title}\". {description or ''}\n"` for each item in order. -/
def format_news (items : List NewsItem) : String :=
  items.enum.foldl
    (fun res p =>
      res ++ toString (p.1 + 1) ++ ") \"" ++ p.2.title ++ "\". "
        ++ p.2.description.getD "" ++ "\n")
    "\n"

/-- The 14-row table built by `Renderer.render` and handed to `tabulate`;
`none` models the exception paths (empty `timezones`, malformed timezone). -/
def render_table (li : LocationInfo) : Option (List (List String)) :=
  match li.location.timezones.head? with
  | none => none
  | some tz0 =>
      match format_time li.timestamp tz0 with
      | none => none
      | some t => some
          [["Страна:", li.location.name],
           ["Столица:", li.location.capital],
           ["Регион:", li.location.subregion],
           ["Языки:", format_languages li.location.languages],
           ["Население страны:", format_population li.location.population ++ " чел."],
           ["Курсы валют:", format_currency_rates li.currency_rates],
           ["Погода:", li.weather.temp ++ " °C"],
           ["Описание погоды:", li.weather.description],
           ["Скорость ветра:", li.weather.wind_speed],
           ["Видимость:", li.weather.visibility],
           ["Площадь:", li.location.area ++ " км^2"],
           ["Широта и долгота:",
             "(" ++ li.location.latitude ++ ", " ++ li.location.longitude ++ ")"],
           ["Местное время:", t ++ " (" ++ tz0 ++ ")"],
           ["Новости:", format_news li.news.news]]

/-- `Renderer.render`: the table above, laid out by the external `tabulate`
collaborator with headers `["Параметр", "Значение"]`, split into lines. -/
def render (tabulate : List (List String) → List String → String)
    (li : LocationInfo) : Option (List String) :=
  (render_table li).map fun table => (tabulate table ["Параметр", "Значение"]).splitOn "\n"

/-- The 14 data rows of spec §4.1, written from the spec's row list (labels
and value formats in the fixed order), for comparison with the table built
by `render`; `tz0` is the first timezone string and `t` the local time. -/
def specRows (li : LocationInfo) (tz0 t : String) : List (List String) :=
  [["Страна:", li.location.name],
   ["Столица:", li.location.capital],
   ["Регион:", li.location.subregion],
   ["Языки:", format_languages li.location.languages],
   ["Население страны:", format_population li.location.population ++ " чел."],
   ["Курсы валют:", format_currency_rates li.currency_rates],
   ["Погода:", li.weather.temp ++ " °C"],
   ["Описание погоды:", li.weather.description],
   ["Скорость ветра:", li.weather.wind_speed],
   ["Видимость:", li.weather.visibility],
   ["Площадь:", li.location.area ++ " км^2"],
   ["Широта и долгота:",
     "(" ++ li.location.latitude ++ ", " ++ li.location.longitude ++ ")"],
   ["Местное время:", t ++ " (" ++ tz0 ++ ")"],
   ["Новости:", format_news li.news.news]]

/-- Rendering of the news lines with an explicit 1-based index `k` for the
first item: `k) "Title". Description` per line, each line terminated by a
newline; used to characterize `format_news`. -/
def newsLinesFrom (k : Nat) : List NewsItem → String
  | [] => ""
  | item :: rest =>
      toString k ++ ") \"" ++ item.title ++ "\". " ++ item.description.getD "" ++ "\n"
        ++ newsLinesFrom (k + 1) rest

/-- A concrete fully-populated input record, parameterized by its (single)
timezone string. -/
def sampleLITz (tz : String) : LocationInfo where
  location :=
    { name := "Россия", capital := "Москва", subregion := "Eastern Europe",
      population := 1234567, area := "17125191", latitude := "61.52",
      longitude := "105.31", timezones := [tz],
      languages := [⟨"Russian", "Русский"⟩] }
  weather := { temp := "5", description := "ясно", wind_speed := "3", visibility := "10" }
  currency_rates := [("USD", ⟨905, 1⟩)]
  news := ⟨[⟨"A", some "B"⟩]⟩
  timestamp := 0

/-- A trivial stand-in for the external table-layout collaborator. -/
def trivTab : List (List String) → List String → String :=
  fun _ _ => ""

/-- The `Renderer` object: it holds the input record and nothing else. -/
structure Renderer where
  location_info : LocationInfo

/-- `Renderer.render` as a state-passing method: the body only reads
`self.location_info` (no statement in the source assigns any attribute),
so the post-state equals the pre-state. -/
def Renderer.renderM (tabulate : List (List String) → List String → String)
    (r : Renderer) : Option (List String) × Renderer :=
  (render tabulate r.location_info, r)

/-- A concrete renderer object. -/
def sampleRenderer : Renderer :=
  ⟨sampleLITz "UTC+03:00"⟩

/-! ## Helper lemmas -/

/-- Shifting a left factor out of the `str.join`-style fold accumulator. -/
theorem foldl_append_shift (sep a b : String) (t : List String) :
    t.foldl (fun acc y => acc ++ sep ++ y) (a ++ b)
      = a ++ t.foldl (fun acc y => acc ++ sep ++ y) b := by
  induction t generalizing b with
  | nil => simp
  | cons y ys ih =>
      simp only [List.foldl_cons]
      have h : a ++ b ++ sep ++ y = a ++ (b ++ sep ++ y) := by
        simp [String.append_assoc]
      rw [h]
      exact ih (b ++ sep ++ y)

/-- `joinSep` on a list with at least two elements peels off the head
followed by the separator. -/
theorem joinSep_cons_cons (sep x y : String) (t : List String) :
    joinSep sep (x :: y :: t) = x ++ sep ++ joinSep sep (y :: t) := by
  simp only [joinSep, List.foldl_cons]
  exact foldl_append_shift sep (x ++ sep) y t

/-- `insertSep` only inserts `'.'` characters: filtering them away on both
sides gives the same list. -/
theorem filter_insertSep : ∀ l : List Char,
    (insertSep l).filter (fun c => c != '.') = l.filter (fun c => c != '.')
  | [] => rfl
  | [_] => rfl
  | [_, _] => rfl
  | [_, _, _] => rfl
  | d1 :: d2 :: d3 :: d4 :: rest => by
      have ih := filter_insertSep (d4 :: rest)
      simp only [insertSep, List.filter_cons]
      rw [ih]
      simp only [List.filter_cons]
      simp

/-- The `lstrip`-then-`int` extraction of a two-digit group equals the
two-digit place value. -/
theorem tzComponent_pair (a b : Char) : tzComponent [a, b] = 10 * dval a + dval b := by
  by_cases ha : a = '0'
  · subst ha
    by_cases hb : b = '0'
    · subst hb; rfl
    · have hb' : (b == '0') = false := by simp [hb]
      have h0 : dval '0' = 0 := by decide
      simp [tzComponent, lstrip0, List.dropWhile_cons, hb', digitsToNat, h0, dval]
  · have ha' : (a == '0') = false := by simp [ha]
    simp [tzComponent, lstrip0, List.dropWhile_cons, ha', digitsToNat, dval]
    ring

/-- The pattern attempt succeeds on a text starting with `UTC`, a sign,
two digits, `:`, two digits, and yields the three groups. -/
theorem matchTzAt_eq (s c1 c2 c3 c4 : Char) (rest : List Char)
    (hs : s = '+' ∨ s = '-') (h1 : c1.isDigit) (h2 : c2.isDigit)
    (h3 : c3.isDigit) (h4 : c4.isDigit) :
    matchTzAt ('U' :: 'T' :: 'C' :: s :: c1 :: c2 :: ':' :: c3 :: c4 :: rest)
      = some (s, [c1, c2], [c3, c4]) := by
  have hsb : (s == '+' || s == '-') = true := by
    rcases hs with h | h <;> simp [h]
  simp [matchTzAt, hsb, h1, h2, h3, h4]

/-- The search returns a match found at the very first position. -/
theorem searchTz_head (c : Char) (cs : List Char) (r : Char × List Char × List Char)
    (h : matchTzAt (c :: cs) = some r) : searchTz (c :: cs) = some r := by
  simp [searchTz, h]

/-- The search fails on a non-empty text iff the head attempt fails and the
search fails on the tail. -/
theorem searchTz_cons_none (c : Char) (cs : List Char) :
    searchTz (c :: cs) = none ↔ matchTzAt (c :: cs) = none ∧ searchTz cs = none := by
  cases hm : matchTzAt (c :: cs) with
  | none => simp [searchTz, hm]
  | some r => simp [searchTz, hm]

/-- The search fails iff the pattern matches at no position of the text. -/
theorem searchTz_none_iff (l : List Char) :
    searchTz l = none ↔ ∀ i, matchTzAt (List.drop i l) = none := by
  induction l with
  | nil =>
      constructor
      · intro _ i
        rw [List.drop_nil]
        rfl
      · intro _
        rfl
  | cons c cs ih =>
      rw [searchTz_cons_none, ih]
      constructor
      · rintro ⟨h0, hrest⟩ i
        cases i with
        | zero => exact h0
        | succ j => rw [List.drop_succ_cons]; exact hrest j
      · intro h
        exact ⟨h 0, fun j => by have := h (j + 1); rwa [List.drop_succ_cons] at this⟩

/-- `parse_tz` yields no offset exactly when the search fails. -/
theorem parse_tz_none_iff_search (s : String) :
    parse_tz s = none ↔ searchTz s.data = none := by
  cases hq : searchTz s.data with
  | none => simp [parse_tz, hq]
  | some r =>
      obtain ⟨sg, hs, ms⟩ := r
      simp [parse_tz, hq]

/-- The news loop over `enumFrom k` appends the lines numbered from `k + 1`
to the accumulator. -/
theorem enumFrom_foldl_news (items : List NewsItem) : ∀ (k : Nat) (acc : String),
    (List.enumFrom k items).foldl
      (fun res p =>
        res ++ toString (p.1 + 1) ++ ") \"" ++ p.2.title ++ "\". "
          ++ p.2.description.getD "" ++ "\n") acc
      = acc ++ newsLinesFrom (k + 1) items := by
  induction items with
  | nil =>
      intro k acc
      simp [newsLinesFrom, List.enumFrom, String.append_empty]
  | cons item rest ih =>
      intro k acc
      simp only [List.enumFrom, List.foldl_cons, newsLinesFrom]
      rw [ih (k + 1)]
      simp [String.append_assoc]

/-- `quantize2` is round-half-up at two decimals: the rounded value in
hundredths is within half a unit of the exact value `100 * num / 10 ^ exp`,
with the tie (`x = q - 1/2`) resolved to the larger magnitude. -/
theorem quantize2_half_up (num exp : Nat) :
    (quantize2 num exp : ℚ) - 1/2 ≤ 100 * (num : ℚ) / 10 ^ exp
    ∧ 100 * (num : ℚ) / 10 ^ exp < (quantize2 num exp : ℚ) + 1/2 := by
  by_cases h : exp ≤ 2
  · have hq : (quantize2 num exp : ℚ) = 100 * (num : ℚ) / 10 ^ exp := by
      simp only [quantize2, if_pos h]
      push_cast
      have hne : (10:ℚ) ^ exp ≠ 0 := by positivity
      field_simp
      rw [mul_assoc, ← pow_add]
      have he : 2 - exp + exp = 2 := by omega
      rw [he]
      ring
    constructor
    · rw [hq]; linarith
    · rw [hq]; linarith
  · have h2 : 2 < exp := by omega
    have hdpos : (0:ℚ) < (10 : ℚ) ^ (exp - 2) := by positivity
    have hq : quantize2 num exp = (2 * num + 10 ^ (exp - 2)) / (2 * 10 ^ (exp - 2)) := by
      simp [quantize2, h]
    have hkey := Nat.div_add_mod (2 * num + 10 ^ (exp - 2)) (2 * 10 ^ (exp - 2))
    have hrlt : (2 * num + 10 ^ (exp - 2)) % (2 * 10 ^ (exp - 2)) < 2 * 10 ^ (exp - 2) :=
      Nat.mod_lt _ (by positivity)
    have hpow : (10:ℚ) ^ exp = 10 ^ (exp - 2) * 10 ^ 2 := by
      rw [← pow_add]
      congr 1
      omega
    have hxd : 100 * (num : ℚ) / 10 ^ exp = (num : ℚ) / (10:ℚ) ^ (exp - 2) := by
      rw [hpow]
      have hne : (10:ℚ) ^ (exp - 2) ≠ 0 := by positivity
      field_simp
      ring
    rw [hq, hxd]
    have hkeyq : 2 * (10:ℚ) ^ (exp - 2)
          * (((2 * num + 10 ^ (exp - 2)) / (2 * 10 ^ (exp - 2)) : ℕ) : ℚ)
        + (((2 * num + 10 ^ (exp - 2)) % (2 * 10 ^ (exp - 2)) : ℕ) : ℚ)
        = 2 * (num : ℚ) + 10 ^ (exp - 2) := by
      have hc := congrArg (fun x : ℕ => (x : ℚ)) hkey
      push_cast at hc
      linarith [hc]
    have hrq : (((2 * num + 10 ^ (exp - 2)) % (2 * 10 ^ (exp - 2)) : ℕ) : ℚ)
        < 2 * (10:ℚ) ^ (exp - 2) := by
      exact_mod_cast hrlt
    have hrnn : (0:ℚ) ≤ (((2 * num + 10 ^ (exp - 2)) % (2 * 10 ^ (exp - 2)) : ℕ) : ℚ) := by
      positivity
    constructor
    · rw [le_div_iff₀ hdpos]
      nlinarith [hkeyq, hrq, hrnn]
    · rw [div_lt_iff₀ hdpos]
      nlinarith [hkeyq, hrq, hrnn]

/-! ## Claim theorems -/

/-- Claim C1: for every well-formed `LocationInfo` (non-empty timezone list
whose first entry yields a local time), `render` builds exactly the 14 data
rows of spec §4.1 — country name, capital, subregion, formatted languages,
population with suffix `" чел."`, currency rates, temperature with `" °C"`,
weather description, wind speed, visibility, area with `" км^2"`, the
`(lat, lon)` pair, local time with `" ("` + raw timezone + `")"`, and the
news block — in that fixed order, and returns the line-split output of the
table-layout collaborator applied to these rows and the two-column header. -/
theorem render_fixed_rows (li : LocationInfo) (tz0 t : String)
    (htz : li.location.timezones.head? = some tz0)
    (ht : format_time li.timestamp tz0 = some t) :
    render_table li = some (specRows li tz0 t)
    ∧ (render_table li).map List.length = some 14
    ∧ ∀ tabulate, render tabulate li
        = some ((tabulate (specRows li tz0 t) ["Параметр", "Значение"]).splitOn "\n") := by
  have hrt : render_table li = some (specRows li tz0 t) := by
    simp only [render_table, htz, ht, specRows]
  refine ⟨hrt, ?_, fun tabulate => ?_⟩
  · rw [hrt]
    rfl
  · simp only [render, hrt, Option.map_some']

theorem render_fixed_rows_witness :
    (render_table (sampleLITz "UTC+03:00")).map List.length = some 14 :=
  (render_fixed_rows (sampleLITz "UTC+03:00") "UTC+03:00" "03:00:00" rfl (by decide)).2.1

/-- Claim C2: when the first timezone string matches the pattern with a `-`
sign, the parsed sign is discarded — the offset is the positive magnitude
`HH` hours plus `MM` minutes, identical to the `+` case, and the local-time
computation adds it to the timestamp instead of subtracting it. -/
theorem tz_minus_sign_discarded (tzm tzp : String) (c1 c2 c3 c4 : Char) (rest : List Char)
    (hm : tzm.data = 'U' :: 'T' :: 'C' :: '-' :: c1 :: c2 :: ':' :: c3 :: c4 :: rest)
    (hp : tzp.data = 'U' :: 'T' :: 'C' :: '+' :: c1 :: c2 :: ':' :: c3 :: c4 :: rest)
    (h1 : c1.isDigit) (h2 : c2.isDigit) (h3 : c3.isDigit) (h4 : c4.isDigit) :
    parse_tz tzm = some ((10 * dval c1 + dval c2) * 3600 + (10 * dval c3 + dval c4) * 60)
    ∧ parse_tz tzm = parse_tz tzp
    ∧ ∀ ts : Nat, format_time ts tzm
        = some (fmtHMS ((ts + ((10 * dval c1 + dval c2) * 3600
            + (10 * dval c3 + dval c4) * 60)) % 86400)) := by
  have hsm : searchTz tzm.data = some ('-', [c1, c2], [c3, c4]) := by
    rw [hm]
    exact searchTz_head _ _ _ (matchTzAt_eq '-' c1 c2 c3 c4 rest (Or.inr rfl) h1 h2 h3 h4)
  have hsp : searchTz tzp.data = some ('+', [c1, c2], [c3, c4]) := by
    rw [hp]
    exact searchTz_head _ _ _ (matchTzAt_eq '+' c1 c2 c3 c4 rest (Or.inl rfl) h1 h2 h3 h4)
  have hpm : parse_tz tzm
      = some ((10 * dval c1 + dval c2) * 3600 + (10 * dval c3 + dval c4) * 60) := by
    simp [parse_tz, hsm, tzComponent_pair]
  have hpp : parse_tz tzp
      = some ((10 * dval c1 + dval c2) * 3600 + (10 * dval c3 + dval c4) * 60) := by
    simp [parse_tz, hsp, tzComponent_pair]
  refine ⟨hpm, by rw [hpm, hpp], fun ts => ?_⟩
  simp [format_time, hpm]

theorem tz_minus_sign_discarded_witness :
    parse_tz "UTC-05:00" = some 18000 ∧ parse_tz "UTC-05:00" = parse_tz "UTC+05:00" := by
  have h := tz_minus_sign_discarded "UTC-05:00" "UTC+05:00" '0' '5' '0' '0' [] rfl rfl
    (by decide) (by decide) (by decide) (by decide)
  exact ⟨by rw [h.1]; decide, h.2.1⟩

/-- Claim C3: when the first timezone string nowhere matches the pattern,
the offset parser yields no offset and the whole `render` operation fails
(models the `TypeError` raised by adding the absent offset); no output with
missing or garbage time data is produced. -/
theorem malformed_tz_render_fails
    (tabulate : List (List String) → List String → String)
    (li : LocationInfo) (tz0 : String)
    (htz : li.location.timezones.head? = some tz0)
    (hnone : searchTz tz0.data = none) :
    parse_tz tz0 = none
    ∧ format_time li.timestamp tz0 = none
    ∧ render tabulate li = none := by
  have hpt : parse_tz tz0 = none := by
    simp [parse_tz, hnone]
  have hft : format_time li.timestamp tz0 = none := by
    simp [format_time, hpt]
  refine ⟨hpt, hft, ?_⟩
  simp [render, render_table, htz, hft]

theorem malformed_tz_render_fails_witness :
    render trivTab (sampleLITz "GMT+3") = none :=
  (malformed_tz_render_fails trivTab (sampleLITz "GMT+3") "GMT+3" rfl (by decide)).2.2

/-- Claim C4: the currency formatter renders each `(code, rate)` pair, in
iteration order, as `CODE = X.XX руб.` joined with `", "`, where the rate —
an exact decimal `num / 10 ^ exp` — is rounded to two decimals by
round-half-up on exact base-10 arithmetic (characterized over `ℚ`); in
particular 2.005 renders as `2.01`, 2.0 as `2.00`, and 0.004 as `0.00`. -/
theorem currency_rates_half_up (num exp : Nat) :
    ((quantize2 num exp : ℚ) - 1/2 ≤ 100 * (num : ℚ) / 10 ^ exp
      ∧ 100 * (num : ℚ) / 10 ^ exp < (quantize2 num exp : ℚ) + 1/2)
    ∧ format_currency_rates [("USD", ⟨2005, 3⟩), ("EUR", ⟨20, 1⟩)]
        = "USD = 2.01 руб., EUR = 2.00 руб."
    ∧ format_currency_rates [("ABC", ⟨4, 3⟩)] = "ABC = 0.00 руб." :=
  ⟨quantize2_half_up num exp, by decide, by decide⟩

/-- Claim C5: when the first timezone string matches `UTC+HH:MM`, the local
time is the timestamp plus `HH` hours and `MM` minutes (leading zeros of a
component insignificant), formatted as zero-padded 24-hour `HH:MM:SS`; in
particular `UTC+03:00` at 2023-01-01T10:00:00Z gives `13:00:00`. -/
theorem tz_plus_local_time (tzp : String) (c1 c2 c3 c4 : Char) (rest : List Char) (ts : Nat)
    (hp : tzp.data = 'U' :: 'T' :: 'C' :: '+' :: c1 :: c2 :: ':' :: c3 :: c4 :: rest)
    (h1 : c1.isDigit) (h2 : c2.isDigit) (h3 : c3.isDigit) (h4 : c4.isDigit) :
    format_time ts tzp
      = some (fmtHMS ((ts + ((10 * dval c1 + dval c2) * 3600
          + (10 * dval c3 + dval c4) * 60)) % 86400))
    ∧ format_time 1672567200 "UTC+03:00" = some "13:00:00" := by
  have hsp : searchTz tzp.data = some ('+', [c1, c2], [c3, c4]) := by
    rw [hp]
    exact searchTz_head _ _ _ (matchTzAt_eq '+' c1 c2 c3 c4 rest (Or.inl rfl) h1 h2 h3 h4)
  have hpp : parse_tz tzp
      = some ((10 * dval c1 + dval c2) * 3600 + (10 * dval c3 + dval c4) * 60) := by
    simp [parse_tz, hsp, tzComponent_pair]
  exact ⟨by simp [format_time, hpp], by decide⟩

theorem tz_plus_local_time_witness :
    format_time 1672567200 "UTC+03:00" = some "13:00:00" :=
  (tz_plus_local_time "UTC+03:00" '0' '3' '0' '0' [] 1672567200 rfl
    (by decide) (by decide) (by decide) (by decide)).2

/-- Claim C6: the population formatter groups the decimal digits of the
non-negative integer in threes with `.` as separator and no decimal part:
removing the separators recovers the plain decimal rendering, and
1234567 renders as `1.234.567`, 0 as `0`. -/
theorem population_grouping (n : Nat) (h : ('.' : Char) ∉ (toString n).data) :
    (format_population n).data.filter (fun c => c != '.') = (toString n).data
    ∧ format_population 1234567 = "1.234.567"
    ∧ format_population 0 = "0" := by
  refine ⟨?_, by decide, by decide⟩
  have hself : (toString n).data.filter (fun c => c != '.') = (toString n).data := by
    rw [List.filter_eq_self]
    intro c hc
    simp only [bne_iff_ne, ne_eq]
    intro he
    exact h (he ▸ hc)
  calc (format_population n).data.filter (fun c => c != '.')
      = (insertSep (toString n).data.reverse).reverse.filter (fun c => c != '.') := rfl
    _ = ((insertSep (toString n).data.reverse).filter (fun c => c != '.')).reverse := by
        rw [List.filter_reverse]
    _ = ((toString n).data.reverse.filter (fun c => c != '.')).reverse := by
        rw [filter_insertSep]
    _ = (((toString n).data.filter (fun c => c != '.')).reverse).reverse := by
        rw [List.filter_reverse]
    _ = (toString n).data.filter (fun c => c != '.') := by
        rw [List.reverse_reverse]
    _ = (toString n).data := hself

theorem population_grouping_witness :
    format_population 1234567 = "1.234.567" :=
  (population_grouping 1234567 (by decide)).2.1

/-- Claim C7: the news formatter produces a block that starts with a newline
and then, for each item in input order with 1-based index `N`, the line
`N) "Title". Description` terminated by a newline, with an absent
description rendered as the empty string; the two-item example of §8
produces exactly the specified block. -/
theorem news_block (items : List NewsItem) :
    format_news items = "\n" ++ newsLinesFrom 1 items
    ∧ format_news [⟨"A", some "B"⟩, ⟨"C", none⟩] = "\n1) \"A\". B\n2) \"C\". \n" := by
  constructor
  · unfold format_news
    rw [show items.enum = List.enumFrom 0 items from rfl]
    exact enumFrom_foldl_news items 0 "\n"
  · decide

/-- Claim C8: the language formatter joins each language as
`Name (NativeName)` with `", "` between entries, preserving input order,
and returns the empty string on the empty list; the two-language example of
§8 renders as specified. -/
theorem languages_join (l : Language) (ls : List Language) (hne : ls ≠ []) :
    format_languages [] = ""
    ∧ format_languages (l :: ls)
        = l.name ++ " (" ++ l.native_name ++ ")" ++ ", " ++ format_languages ls
    ∧ format_languages [⟨"English", "English"⟩, ⟨"Spanish", "Español"⟩]
        = "English (English), Spanish (Español)" := by
  refine ⟨rfl, ?_, by decide⟩
  obtain ⟨y, t, rfl⟩ := List.exists_cons_of_ne_nil hne
  simp only [format_languages, List.map_cons]
  exact joinSep_cons_cons ", " (l.name ++ " (" ++ l.native_name ++ ")")
    (y.name ++ " (" ++ y.native_name ++ ")") (t.map fun item => item.name ++ " (" ++ item.native_name ++ ")")

theorem languages_join_witness :
    format_languages [⟨"English", "English"⟩, ⟨"Spanish", "Español"⟩]
      = "English (English), Spanish (Español)" :=
  (languages_join ⟨"English", "English"⟩ [⟨"Spanish", "Español"⟩]
    (List.cons_ne_nil _ _)).2.2

/-- Claim C9: rendering is a pure, deterministic, mutation-free function of
the input record: the state-passing embedding of `Renderer.render` leaves the
renderer unchanged, two calls on records with equal contents give equal
output, and the result is exactly the pure `render` of the held record (no
other state — in particular no wall clock — is consulted). -/
theorem render_pure_stateless
    (tabulate : List (List String) → List String → String)
    (r r' : Renderer) (h : r.location_info = r'.location_info) :
    (Renderer.renderM tabulate r).2 = r
    ∧ (Renderer.renderM tabulate r).1 = (Renderer.renderM tabulate r').1
    ∧ Renderer.renderM tabulate r = (render tabulate r.location_info, r) := by
  refine ⟨rfl, ?_, rfl⟩
  simp [Renderer.renderM, h]

theorem render_pure_stateless_witness :
    (Renderer.renderM trivTab sampleRenderer).2 = sampleRenderer :=
  (render_pure_stateless trivTab sampleRenderer sampleRenderer rfl).1

/-- Claim C10: the timezone parser uses substring search, not a full-string
match: parsing fails exactly when the pattern matches at no position of the
string, and a string with a `UTC+HH:MM`-shaped substring inside surrounding
text (e.g. `xUTC+03:00y`) parses successfully, so `render` does not fail. -/
theorem tz_substring_search (s : String) :
    (parse_tz s = none ↔ ∀ i, matchTzAt (List.drop i s.data) = none)
    ∧ parse_tz "xUTC+03:00y" = some 10800
    ∧ (∀ ts, format_time ts "xUTC+03:00y" = some (fmtHMS ((ts + 10800) % 86400)))
    ∧ ∀ (tabulate : List (List String) → List String → String) (li : LocationInfo),
        li.location.timezones.head? = some "xUTC+03:00y" →
        render tabulate li ≠ none := by
  have hiff : parse_tz s = none ↔ ∀ i, matchTzAt (List.drop i s.data) = none := by
    rw [parse_tz_none_iff_search]
    exact searchTz_none_iff s.data
  have hconc : parse_tz "xUTC+03:00y" = some 10800 := by decide
  have hft : ∀ ts, format_time ts "xUTC+03:00y" = some (fmtHMS ((ts + 10800) % 86400)) := by
    intro ts
    simp [format_time, hconc]
  refine ⟨hiff, hconc, hft, fun tabulate li htz => ?_⟩
  simp [render, render_table, htz, hft li.timestamp]

theorem tz_substring_search_witness :
    render trivTab (sampleLITz "xUTC+03:00y") ≠ none :=
  (tz_substring_search "xUTC+03:00y").2.2.2 trivTab (sampleLITz "xUTC+03:00y") rfl

end CountryDirectory
